import Mathlib

/-!
Verification of the gift-card platform's balance / transaction / commission
services. The definitions below are translated from the service code of the
repository (modules `app/modules/gift-card`, `app/modules/asaas`,
`app/modules/commission`, `app/jobs`, and the exception classes under
`app/exceptions`). Money amounts are modelled as rationals.
-/

set_option maxRecDepth 8000

namespace GiftCardPlatform

/-- Gift-card status enum, from the `gift_cards` model
(`status: 'active' | 'used' | 'expired' | 'cancelled'`). -/
inductive GCStatus
  | active
  | used
  | expired
  | cancelled
deriving DecidableEq, Repr

/-- Transaction type enum, from the `transactions` model
(`type: 'recharge' | 'usage' | 'refund'`). -/
inductive TxType
  | recharge
  | usage
  | refund
deriving DecidableEq, Repr

/-- A row of the `transactions` table, with the fields the services write. -/
structure Transaction where
  id : Nat
  giftCardId : Nat
  establishmentId : Nat
  txType : TxType
  amount : Rat
  balanceBefore : Rat
  balanceAfter : Rat
  description : Option String
deriving DecidableEq, Repr

/-- A row of the `gift_cards` table, with the fields the services touch. -/
structure GiftCard where
  id : Nat
  franchiseeId : Nat
  establishmentId : Nat
  initialValue : Rat
  currentBalance : Rat
  status : GCStatus
deriving DecidableEq, Repr

/-- The franchisee fields read by the recharge service
(`giftCard.franchisee.commissionRate`). -/
structure Franchisee where
  id : Nat
  commissionRate : Rat
deriving DecidableEq, Repr

/-- Commission status enum, from the `commissions` model
(`status: 'pending' | 'charged' | 'paid' | 'failed'`). -/
inductive CommissionStatus
  | pending
  | charged
  | paid
  | failed
deriving DecidableEq, Repr

/-- A row of the `commissions` table. `paidAt` keeps the gateway's ISO date
string recorded by the webhook handler. -/
structure Commission where
  id : Nat
  franchiseeId : Nat
  establishmentId : Nat
  transactionId : Nat
  amount : Rat
  rate : Rat
  status : CommissionStatus
  asaasChargeId : Option String
  paymentMethod : Option String
  paidAt : Option String
deriving DecidableEq, Repr

/-- The error shape produced by `BaseException.toJSON`
(`app/exceptions/base.exception.ts`): `{code, message, status}`. -/
structure HttpError where
  code : String
  message : String
  status : Nat
deriving DecidableEq, Repr

/-- `BadRequestException` (`app/exceptions/bad-request.exception.ts`):
HTTP status 400, default code `E_BAD_REQUEST`. -/
def badRequestException (message : String) : HttpError :=
  { code := "E_BAD_REQUEST", message := message, status := 400 }

/-- The persisted state relevant to one gift card: the card row, its
transaction rows in creation order (oldest first), and the commission rows
generated from its recharges. -/
structure LedgerState where
  card : GiftCard
  transactions : List Transaction
  commissions : List Commission
deriving DecidableEq, Repr

/-- Input of `RechargeGiftCardService.execute` (after validation resolved the
card, the remaining fields of `RechargeData`). -/
structure RechargeData where
  establishmentId : Nat
  amount : Rat
  description : Option String
deriving DecidableEq, Repr

/-- Input of `UseGiftCardService.execute` (after validation resolved the card,
the remaining fields of `UseData`). -/
structure UseData where
  establishmentId : Nat
  amount : Rat
  description : Option String
deriving DecidableEq, Repr

/-- The fields passed by the recharge service to `commissionService.create`. -/
structure CreateCommissionData where
  id : Nat
  franchiseeId : Nat
  establishmentId : Nat
  transactionId : Nat
  amount : Rat
  rate : Rat
deriving DecidableEq, Repr

/-- Modelled from the spec: the body of `CreateCommissionService.create`
(`app/modules/commission/services/create-commission.service.ts`) is not in the
repository snapshot, only its caller in the recharge service is. Per the spec
and the repository docs (commission lifecycle, recharge response examples,
database ER diagram) it persists a commission row with the supplied fields in
status `pending`, with no gateway charge reference, payment method, or paid-at
timestamp yet. -/
def CreateCommissionService.create (d : CreateCommissionData) : Commission :=
  { id := d.id, franchiseeId := d.franchiseeId, establishmentId := d.establishmentId,
    transactionId := d.transactionId, amount := d.amount, rate := d.rate,
    status := .pending, asaasChargeId := none, paymentMethod := none, paidAt := none }

namespace RechargeGiftCardService

/-- The result record returned by `RechargeGiftCardService.execute`. -/
structure RechargeResult where
  transaction : Transaction
  giftCard : GiftCard
  commission : Commission
deriving DecidableEq, Repr

/-- `RechargeGiftCardService.execute`
(`app/modules/gift-card/services/recharge-gift-card/recharge-gift-card.service.ts`):
reads the card's balance, appends a `recharge` transaction row with
`balanceAfter = balanceBefore + amount`, updates the card's balance, and
creates one commission with `amount = data.amount * (commissionRate / 100)`
and the franchisee's current rate. The source performs no gateway call here;
charging happens later in a queued job. `validateGiftCard`'s body is not in
the snapshot; it only resolves the card, which in this single-card state is
`s.card`. New row ids are the next indices of the respective tables. -/
def execute (franchisee : Franchisee) (s : LedgerState) (d : RechargeData) :
    RechargeResult × LedgerState :=
  let giftCard := s.card
  let balanceBefore := giftCard.currentBalance
  let balanceAfter := balanceBefore + d.amount
  let transaction : Transaction :=
    { id := s.transactions.length, giftCardId := giftCard.id,
      establishmentId := d.establishmentId, txType := .recharge,
      amount := d.amount, balanceBefore := balanceBefore,
      balanceAfter := balanceAfter, description := d.description }
  let card' : GiftCard := { giftCard with currentBalance := balanceAfter }
  let commission := CreateCommissionService.create
    { id := s.commissions.length, franchiseeId := giftCard.franchiseeId,
      establishmentId := d.establishmentId, transactionId := transaction.id,
      amount := d.amount * (franchisee.commissionRate / 100),
      rate := franchisee.commissionRate }
  ({ transaction := transaction, giftCard := card', commission := commission },
   { card := card', transactions := s.transactions ++ [transaction],
     commissions := s.commissions ++ [commission] })

/-- The recharge service's write sequence with a failure injected at the
`repository.update` call. In the source, `transactionService.create` and
`repository.update` are two separate awaits with no enclosing database
transaction, so when the balance update fails the already-persisted
transaction row remains, the commission is never created, and the exception
propagates. -/
def executeUpdateFails (s : LedgerState) (d : RechargeData) : LedgerState :=
  let giftCard := s.card
  let balanceBefore := giftCard.currentBalance
  let balanceAfter := balanceBefore + d.amount
  let transaction : Transaction :=
    { id := s.transactions.length, giftCardId := giftCard.id,
      establishmentId := d.establishmentId, txType := .recharge,
      amount := d.amount, balanceBefore := balanceBefore,
      balanceAfter := balanceAfter, description := d.description }
  { s with transactions := s.transactions ++ [transaction] }

end RechargeGiftCardService

namespace UseGiftCardService

/-- The result record returned by `UseGiftCardService.execute`. -/
structure UseResult where
  transaction : Transaction
  giftCard : GiftCard
deriving DecidableEq, Repr

/-- `UseGiftCardService.execute`
(`app/modules/gift-card/services/use-gift-card/use-gift-card.service.ts`):
throws `BadRequestException('Insufficient balance')` when
`currentBalance < amount`; otherwise appends a `usage` transaction row with
`balanceAfter = balanceBefore - amount`, updates the balance, and sets the
card status to `used` exactly when the new balance is zero. -/
def execute (s : LedgerState) (d : UseData) :
    Except HttpError (UseResult × LedgerState) :=
  let giftCard := s.card
  if giftCard.currentBalance < d.amount then
    .error (badRequestException "Insufficient balance")
  else
    let balanceBefore := giftCard.currentBalance
    let balanceAfter := balanceBefore - d.amount
    let transaction : Transaction :=
      { id := s.transactions.length, giftCardId := giftCard.id,
        establishmentId := d.establishmentId, txType := .usage,
        amount := d.amount, balanceBefore := balanceBefore,
        balanceAfter := balanceAfter, description := d.description }
    let status' := if balanceAfter = 0 then GCStatus.used else giftCard.status
    let card' : GiftCard :=
      { giftCard with currentBalance := balanceAfter, status := status' }
    .ok ({ transaction := transaction, giftCard := card' },
         { s with card := card', transactions := s.transactions ++ [transaction] })

end UseGiftCardService

/-- `CreateGiftCardService.execute`
(`app/modules/gift-card/services/create-gift-card/create-gift-card.service.ts`):
creates the card with `currentBalance = initialValue` and status `active`
(code and QR-code generation do not affect the ledger fields). -/
def CreateGiftCardService.execute (id franchiseeId establishmentId : Nat)
    (initialValue : Rat) : GiftCard :=
  { id := id, franchiseeId := franchiseeId, establishmentId := establishmentId,
    initialValue := initialValue, currentBalance := initialValue,
    status := .active }

/-- A freshly created card has no transactions and no commissions. -/
def initLedger (g : GiftCard) : LedgerState :=
  { card := g, transactions := [], commissions := [] }

/-- A balance-affecting operation requested against the card. -/
inductive Op
  | recharge (establishmentId : Nat) (amount : Rat)
  | use (establishmentId : Nat) (amount : Rat)
deriving DecidableEq, Repr

/-- The amount carried by an operation. -/
def Op.amount : Op → Rat
  | .recharge _ a => a
  | .use _ a => a

/-- One service call: a recharge always commits; a use commits unless the
service throws, in which case the state is unchanged (the throw happens
before any write). -/
def stepOp (f : Franchisee) (s : LedgerState) : Op → LedgerState
  | .recharge e a => (RechargeGiftCardService.execute f s ⟨e, a, none⟩).2
  | .use e a =>
    match UseGiftCardService.execute s ⟨e, a, none⟩ with
    | .ok r => r.2
    | .error _ => s

/-- A sequence of service calls against one card. -/
def runOps (f : Franchisee) (s : LedgerState) (ops : List Op) : LedgerState :=
  ops.foldl (stepOp f) s

/-- The gateway charge object returned by `asaasClient.createCharge`, reduced
to the field the service stores (`charge.id`). -/
structure AsaasCharge where
  id : String
deriving DecidableEq, Repr

/-- The `CreateChargeData` payload the charge service sends to the gateway. -/
structure CreateChargeData where
  customer : String
  billingType : String
  value : Rat
  dueDate : String
  description : String
  externalReference : String
deriving DecidableEq, Repr

/-- The establishment fields read by `CreateCustomerService.execute`. -/
structure Establishment where
  id : Nat
  name : String
  asaasCustomerId : Option String
deriving DecidableEq, Repr

namespace CreateCustomerService

/-- The observable outcome of `CreateCustomerService.execute`: the returned
customer id, the establishment row afterwards, and how many
`asaasClient.createCustomer` calls were made. -/
structure CustomerOutcome where
  customerId : String
  establishment : Establishment
  gatewayCalls : Nat
deriving DecidableEq, Repr

/-- `CreateCustomerService.execute`
(`app/modules/asaas/services/customer/create-customer.service.ts`): when the
establishment already has an `asaasCustomerId` it is returned at once, with no
gateway call and no establishment update; otherwise the gateway creates a
customer (its fresh id is the `gatewayCustomerId` argument) and the
establishment row is updated with that id. -/
def execute (est : Establishment) (gatewayCustomerId : String) : CustomerOutcome :=
  match est.asaasCustomerId with
  | some cid => { customerId := cid, establishment := est, gatewayCalls := 0 }
  | none =>
    { customerId := gatewayCustomerId,
      establishment := { est with asaasCustomerId := some gatewayCustomerId },
      gatewayCalls := 1 }

end CreateCustomerService

namespace CreateCommissionChargeService

/-- `CreateCommissionChargeService.mapPaymentMethod`
(`app/modules/asaas/services/payment/create-commission-charge.service.ts`):
the object lookup `mapping[method] || 'PIX'` maps `ticket`, `pix`,
`credit_card` and falls back to `'PIX'` for every other string. -/
def mapPaymentMethod (method : String) : String :=
  if method = "ticket" then "BOLETO"
  else if method = "pix" then "PIX"
  else if method = "credit_card" then "CREDIT_CARD"
  else "PIX"

/-- `CreateCommissionChargeService.execute`, success path: builds the charge
payload (billing type via `mapPaymentMethod`, value from the commission), the
gateway returns `charge`, and the commission row is updated with the charge
id, the chosen payment method, and status `charged`. The source performs no
check of the commission's current status. Returns the updated commission row
and the payload sent to the gateway. -/
def execute (customerId : String) (c : Commission) (paymentMethod : String)
    (dueDate : String) (charge : AsaasCharge) : Commission × CreateChargeData :=
  let chargeData : CreateChargeData :=
    { customer := customerId,
      billingType := mapPaymentMethod paymentMethod,
      value := c.amount, dueDate := dueDate,
      description := "Commission payment - " ++ toString c.id,
      externalReference := "commission_" ++ toString c.id }
  ({ c with
      asaasChargeId := some charge.id,
      paymentMethod := some paymentMethod,
      status := .charged }, chargeData)

end CreateCommissionChargeService

/-- `CommissionChargeJob.handle`'s catch branch (`app/jobs/commission-charge.job.ts`):
when charge creation fails the commission row is set to `failed`, with no
check of its current status. -/
def CommissionChargeJob.markFailed (c : Commission) : Commission :=
  { c with status := .failed }

/-- The payment payload fields read by the webhook handlers. -/
structure AsaasPayment where
  id : String
  confirmedDate : Option String
  clientPaymentDate : String
deriving DecidableEq, Repr

namespace ProcessWebhookService

/-- `ProcessWebhookService.handlePaymentSuccess`
(`app/modules/asaas/services/webhook/process-webhook.service.ts`): sets the
commission to `paid` and records `paidAt` from
`payment.confirmedDate || payment.clientPaymentDate`, with no check of the
commission's current status. -/
def handlePaymentSuccess (c : Commission) (p : AsaasPayment) : Commission :=
  { c with
    status := .paid,
    paidAt := some (p.confirmedDate.getD p.clientPaymentDate) }

/-- `ProcessWebhookService.handlePaymentOverdue`: the commission row is not
updated (the status stays as it is, only a notification may be sent). -/
def handlePaymentOverdue (c : Commission) (_p : AsaasPayment) : Commission := c

/-- Modelled from the spec: `handlePaymentCancellation` is invoked by
`ProcessWebhookService.execute` for `PAYMENT_DELETED` / `PAYMENT_REFUNDED`
but its body is not in the repository snapshot. Per the spec, a deletion or
refund event transitions the commission to `failed` provided it is not
already `paid`. -/
def handlePaymentCancellation (c : Commission) (_p : AsaasPayment) : Commission :=
  if c.status = .paid then c else { c with status := .failed }

/-- The event dispatch of `ProcessWebhookService.execute` for a commission
that was found: the string-keyed switch over the event kind, whose default
arm only logs and changes nothing. -/
def processEvent (c : Commission) (event : String) (p : AsaasPayment) : Commission :=
  if event = "PAYMENT_CONFIRMED" ∨ event = "PAYMENT_RECEIVED" then
    handlePaymentSuccess c p
  else if event = "PAYMENT_OVERDUE" then
    handlePaymentOverdue c p
  else if event = "PAYMENT_DELETED" ∨ event = "PAYMENT_REFUNDED" then
    handlePaymentCancellation c p
  else c

end ProcessWebhookService

/-- Per-row arithmetic of the spec's transaction invariant:
`balanceAfter = balanceBefore + amount` for a recharge,
`balanceAfter = balanceBefore - amount` for a usage. -/
def txArithOk (t : Transaction) : Bool :=
  match t.txType with
  | .recharge => decide (t.balanceAfter = t.balanceBefore + t.amount)
  | .usage => decide (t.balanceAfter = t.balanceBefore - t.amount)
  | .refund => true

/-- Consecutive links of the transaction chain: each transaction's
`balanceAfter` equals the next transaction's `balanceBefore`. -/
def adjacentLinked : List Transaction → Bool
  | [] => true
  | [_] => true
  | t₁ :: t₂ :: ts => decide (t₁.balanceAfter = t₂.balanceBefore) && adjacentLinked (t₂ :: ts)

/-- The last transaction's `balanceAfter` equals the card's current balance
(vacuously true with no transactions). -/
def lastLinksCard (s : LedgerState) : Bool :=
  match s.transactions.getLast? with
  | none => true
  | some t => decide (t.balanceAfter = s.card.currentBalance)

/-- The full transaction-chain invariant of the spec. -/
def ChainInv (s : LedgerState) : Prop :=
  adjacentLinked s.transactions = true ∧
    s.transactions.all txArithOk = true ∧ lastLinksCard s = true

theorem lastLinksCard_spec (s : LedgerState) (h : lastLinksCard s = true) :
    ∀ l, s.transactions.getLast? = some l → l.balanceAfter = s.card.currentBalance := by
  intro l hl
  unfold lastLinksCard at h
  rw [hl] at h
  simpa using h

theorem adjacentLinked_append (t : Transaction) :
    ∀ ts : List Transaction, adjacentLinked ts = true →
      (∀ l, ts.getLast? = some l → l.balanceAfter = t.balanceBefore) →
      adjacentLinked (ts ++ [t]) = true
  | [], _, _ => rfl
  | [a], _, hl => by
    simp only [List.cons_append, List.nil_append, adjacentLinked, Bool.and_eq_true,
      decide_eq_true_eq]
    exact ⟨hl a rfl, trivial⟩
  | a :: b :: ts, h, hl => by
    simp only [List.cons_append, adjacentLinked, Bool.and_eq_true, decide_eq_true_eq] at h ⊢
    refine ⟨h.1, ?_⟩
    have := adjacentLinked_append t (b :: ts) h.2
      (fun l hll => hl l (by rw [List.getLast?_cons_cons]; exact hll))
    simpa only [List.cons_append] using this

theorem UseGiftCardService.execute_insufficient (s : LedgerState) (d : UseData)
    (h : s.card.currentBalance < d.amount) :
    UseGiftCardService.execute s d =
      Except.error (badRequestException "Insufficient balance") := by
  simp only [UseGiftCardService.execute]
  rw [if_pos h]

theorem UseGiftCardService.execute_sufficient (s : LedgerState) (d : UseData)
    (h : ¬ s.card.currentBalance < d.amount) :
    UseGiftCardService.execute s d =
      Except.ok
        ({ transaction :=
            { id := s.transactions.length, giftCardId := s.card.id,
              establishmentId := d.establishmentId, txType := .usage,
              amount := d.amount, balanceBefore := s.card.currentBalance,
              balanceAfter := s.card.currentBalance - d.amount,
              description := d.description },
           giftCard :=
            { s.card with
              currentBalance := s.card.currentBalance - d.amount,
              status := if s.card.currentBalance - d.amount = 0 then GCStatus.used
                else s.card.status } },
         { card :=
            { s.card with
              currentBalance := s.card.currentBalance - d.amount,
              status := if s.card.currentBalance - d.amount = 0 then GCStatus.used
                else s.card.status },
           transactions := s.transactions ++
            [{ id := s.transactions.length, giftCardId := s.card.id,
               establishmentId := d.establishmentId, txType := .usage,
               amount := d.amount, balanceBefore := s.card.currentBalance,
               balanceAfter := s.card.currentBalance - d.amount,
               description := d.description }],
           commissions := s.commissions }) := by
  simp only [UseGiftCardService.execute]
  rw [if_neg h]

theorem stepOp_use_insufficient (f : Franchisee) (s : LedgerState) (e : Nat) (a : Rat)
    (h : s.card.currentBalance < a) : stepOp f s (.use e a) = s := by
  simp only [stepOp]
  rw [UseGiftCardService.execute_insufficient s ⟨e, a, none⟩ h]

theorem stepOp_recharge_eq (f : Franchisee) (s : LedgerState) (e : Nat) (a : Rat) :
    stepOp f s (.recharge e a) =
      { card := { s.card with currentBalance := s.card.currentBalance + a },
        transactions := s.transactions ++
          [{ id := s.transactions.length, giftCardId := s.card.id,
             establishmentId := e, txType := .recharge, amount := a,
             balanceBefore := s.card.currentBalance,
             balanceAfter := s.card.currentBalance + a, description := none }],
        commissions := s.commissions ++
          [CreateCommissionService.create
            { id := s.commissions.length, franchiseeId := s.card.franchiseeId,
              establishmentId := e, transactionId := s.transactions.length,
              amount := a * (f.commissionRate / 100), rate := f.commissionRate }] } := rfl

theorem stepOp_use_sufficient (f : Franchisee) (s : LedgerState) (e : Nat) (a : Rat)
    (h : ¬ s.card.currentBalance < a) :
    stepOp f s (.use e a) =
      { card :=
          { s.card with
            currentBalance := s.card.currentBalance - a,
            status := if s.card.currentBalance - a = 0 then GCStatus.used
              else s.card.status },
        transactions := s.transactions ++
          [{ id := s.transactions.length, giftCardId := s.card.id,
             establishmentId := e, txType := .usage, amount := a,
             balanceBefore := s.card.currentBalance,
             balanceAfter := s.card.currentBalance - a, description := none }],
        commissions := s.commissions } := by
  simp only [stepOp]
  rw [UseGiftCardService.execute_sufficient s ⟨e, a, none⟩ h]

theorem runOps_nil (f : Franchisee) (s : LedgerState) : runOps f s [] = s := rfl

theorem runOps_cons (f : Franchisee) (s : LedgerState) (op : Op) (ops : List Op) :
    runOps f s (op :: ops) = runOps f (stepOp f s op) ops := rfl

theorem chainInv_stepOp (f : Franchisee) (op : Op) (s : LedgerState) (h : ChainInv s) :
    ChainInv (stepOp f s op) := by
  obtain ⟨h1, h2, h3⟩ := h
  have hlast := lastLinksCard_spec s h3
  cases op with
  | recharge e a =>
    rw [stepOp_recharge_eq]
    refine ⟨?_, ?_, ?_⟩
    · exact adjacentLinked_append _ s.transactions h1 (fun l hl => hlast l hl)
    · rw [List.all_append, h2]
      simp [txArithOk]
    · simp [lastLinksCard, List.getLast?_append]
  | use e a =>
    by_cases hlt : s.card.currentBalance < a
    · rw [stepOp_use_insufficient f s e a hlt]
      exact ⟨h1, h2, h3⟩
    · rw [stepOp_use_sufficient f s e a hlt]
      refine ⟨?_, ?_, ?_⟩
      · exact adjacentLinked_append _ s.transactions h1 (fun l hl => hlast l hl)
      · rw [List.all_append, h2]
        simp [txArithOk]
      · simp [lastLinksCard, List.getLast?_append]

theorem chainInv_runOps (f : Franchisee) (ops : List Op) :
    ∀ s : LedgerState, ChainInv s → ChainInv (runOps f s ops) := by
  induction ops with
  | nil => intro s h; exact h
  | cons op ops ih =>
    intro s h
    rw [runOps_cons]
    exact ih _ (chainInv_stepOp f op s h)

theorem stepOp_balance_nonneg (f : Franchisee) (s : LedgerState) (op : Op)
    (h0 : 0 ≤ s.card.currentBalance) (ha : 0 < op.amount) :
    0 ≤ (stepOp f s op).card.currentBalance := by
  cases op with
  | recharge e a =>
    rw [stepOp_recharge_eq]
    show (0 : ℚ) ≤ s.card.currentBalance + a
    simp only [Op.amount] at ha
    linarith
  | use e a =>
    simp only [Op.amount] at ha
    by_cases hlt : s.card.currentBalance < a
    · rw [stepOp_use_insufficient f s e a hlt]
      exact h0
    · rw [stepOp_use_sufficient f s e a hlt]
      show (0 : ℚ) ≤ s.card.currentBalance - a
      push_neg at hlt
      linarith

theorem runOps_balance_nonneg (f : Franchisee) (ops : List Op) :
    ∀ s : LedgerState, 0 ≤ s.card.currentBalance → (∀ op ∈ ops, 0 < op.amount) →
      0 ≤ (runOps f s ops).card.currentBalance := by
  induction ops with
  | nil => intro s h _; exact h
  | cons op ops ih =>
    intro s h hall
    rw [runOps_cons]
    exact ih _ (stepOp_balance_nonneg f s op h (hall op (by simp)))
      (fun o ho => hall o (by simp [ho]))

theorem stepOp_status_used (f : Franchisee) (s : LedgerState) (op : Op)
    (h : s.card.status = GCStatus.used) : (stepOp f s op).card.status = GCStatus.used := by
  cases op with
  | recharge e a =>
    rw [stepOp_recharge_eq]
    exact h
  | use e a =>
    by_cases hlt : s.card.currentBalance < a
    · rw [stepOp_use_insufficient f s e a hlt]
      exact h
    · rw [stepOp_use_sufficient f s e a hlt]
      show (if s.card.currentBalance - a = 0 then GCStatus.used else s.card.status) =
        GCStatus.used
      split <;> simp [h]

theorem runOps_status_used (f : Franchisee) (ops : List Op) :
    ∀ s : LedgerState, s.card.status = GCStatus.used →
      (runOps f s ops).card.status = GCStatus.used := by
  induction ops with
  | nil => intro s h; exact h
  | cons op ops ih =>
    intro s h
    rw [runOps_cons]
    exact ih _ (stepOp_status_used f s op h)

/-- C1, counterexample to the claim as stated: a recharge of 50 on a freshly
created card of `initialValue = 100` (so `currentBalance = 100`) is not
rejected — `RechargeGiftCardService.execute` has no upper-bound check and no
`InvalidOperationError` — and leaves `currentBalance = 150 > initialValue`,
violating `currentBalance <= initialValue`. -/
theorem balance_upper_bound_counterexample :
    let s := (RechargeGiftCardService.execute ⟨1, 5⟩
        (initLedger (CreateGiftCardService.execute 1 1 1 100)) ⟨1, 50, none⟩).2
    s.card.currentBalance = 150 ∧ s.card.initialValue = 100 ∧
      ¬ s.card.currentBalance ≤ s.card.initialValue := by
  refine ⟨?_, ?_, ?_⟩
  · norm_num [CreateGiftCardService.execute, RechargeGiftCardService.execute, initLedger]
  · norm_num [CreateGiftCardService.execute, RechargeGiftCardService.execute, initLedger]
  · norm_num [CreateGiftCardService.execute, RechargeGiftCardService.execute, initLedger]

/-- C1 (amended): starting from a freshly created card with nonnegative
`initialValue` and running any sequence of recharge / use operations with
positive amounts (the validators require positive amounts), the lower bound
`0 <= currentBalance` always holds and a use whose amount exceeds the current
balance is rejected with `BadRequestException('Insufficient balance')`,
leaving the state unchanged. The upper bound `currentBalance <= initialValue`
does not hold (see the counterexample): recharges are uncapped. -/
theorem balance_lower_bound (f : Franchisee) (id fid eid : Nat) (v : Rat)
    (ops : List Op) (e : Nat) (a : Rat)
    (hv : 0 ≤ v) (hops : ∀ op ∈ ops, 0 < op.amount) :
    0 ≤ (runOps f (initLedger (CreateGiftCardService.execute id fid eid v))
        ops).card.currentBalance ∧
    ((runOps f (initLedger (CreateGiftCardService.execute id fid eid v))
        ops).card.currentBalance < a →
      UseGiftCardService.execute
          (runOps f (initLedger (CreateGiftCardService.execute id fid eid v)) ops)
          ⟨e, a, none⟩ =
        Except.error (badRequestException "Insufficient balance") ∧
      stepOp f (runOps f (initLedger (CreateGiftCardService.execute id fid eid v)) ops)
          (.use e a) =
        runOps f (initLedger (CreateGiftCardService.execute id fid eid v)) ops) := by
  constructor
  · exact runOps_balance_nonneg f ops _ hv hops
  · intro hlt
    exact ⟨UseGiftCardService.execute_insufficient _ _ hlt,
      stepOp_use_insufficient f _ e a hlt⟩

/-- Witness for the C1 theorem at a concrete input: card of initial value 100,
operations recharge 50 then use 30, then a use of 500 against the resulting
balance 120. -/
theorem balance_lower_bound_witness :
    ((0 : ℚ) ≤ 100 ∧ ∀ op ∈ ([.recharge 1 50, .use 1 30] : List Op), 0 < op.amount) ∧
    (0 ≤ (runOps ⟨1, 5⟩ (initLedger (CreateGiftCardService.execute 1 1 1 100))
        [.recharge 1 50, .use 1 30]).card.currentBalance ∧
      ((runOps ⟨1, 5⟩ (initLedger (CreateGiftCardService.execute 1 1 1 100))
          [.recharge 1 50, .use 1 30]).card.currentBalance < 500 →
        UseGiftCardService.execute
            (runOps ⟨1, 5⟩ (initLedger (CreateGiftCardService.execute 1 1 1 100))
              [.recharge 1 50, .use 1 30]) ⟨2, 500, none⟩ =
          Except.error (badRequestException "Insufficient balance") ∧
        stepOp ⟨1, 5⟩ (runOps ⟨1, 5⟩ (initLedger (CreateGiftCardService.execute 1 1 1 100))
            [.recharge 1 50, .use 1 30]) (.use 2 500) =
          runOps ⟨1, 5⟩ (initLedger (CreateGiftCardService.execute 1 1 1 100))
            [.recharge 1 50, .use 1 30])) :=
  ⟨⟨by norm_num, by
      intro op hop
      fin_cases hop <;> norm_num [Op.amount]⟩,
    balance_lower_bound ⟨1, 5⟩ 1 1 1 100 [.recharge 1 50, .use 1 30] 2 500
      (by norm_num)
      (by intro op hop; fin_cases hop <;> norm_num [Op.amount])⟩

/-- C2: for a freshly created card and any sequence of recharge / use calls,
ordering transactions by creation time, consecutive transactions satisfy
`balanceAfter = next.balanceBefore`, every transaction satisfies the
per-type arithmetic (`+ amount` for recharge, `- amount` for usage),
and the last transaction's `balanceAfter` equals the card's
`currentBalance`. -/
theorem transaction_chain_invariant (f : Franchisee) (id fid eid : Nat) (v : Rat)
    (ops : List Op) :
    adjacentLinked (runOps f (initLedger (CreateGiftCardService.execute id fid eid v))
        ops).transactions = true ∧
    (runOps f (initLedger (CreateGiftCardService.execute id fid eid v))
        ops).transactions.all txArithOk = true ∧
    lastLinksCard (runOps f (initLedger (CreateGiftCardService.execute id fid eid v))
        ops) = true :=
  chainInv_runOps f ops _ ⟨rfl, rfl, rfl⟩

/-- C3: evaluating the recharge write sequence at the failing input (card
with `currentBalance = 100`, recharge of 50, `repository.update` fails after
`transactionService.create` committed): the Transaction row exists with
`balanceAfter = 150` while the card's `currentBalance` is still 100 — a
partial state, since the two writes share no database transaction. -/
theorem atomicity_failure_eval :
    (RechargeGiftCardService.executeUpdateFails
        (initLedger (CreateGiftCardService.execute 1 1 1 100)) ⟨1, 50, none⟩).transactions =
      [{ id := 0, giftCardId := 1, establishmentId := 1,
         txType := TxType.recharge, amount := 50, balanceBefore := 100,
         balanceAfter := 150, description := none }] ∧
    (RechargeGiftCardService.executeUpdateFails
        (initLedger (CreateGiftCardService.execute 1 1 1 100))
        ⟨1, 50, none⟩).card.currentBalance = 100 ∧
    lastLinksCard (RechargeGiftCardService.executeUpdateFails
        (initLedger (CreateGiftCardService.execute 1 1 1 100)) ⟨1, 50, none⟩) = false := by
  refine ⟨?_, ?_, ?_⟩
  · norm_num [RechargeGiftCardService.executeUpdateFails, initLedger,
      CreateGiftCardService.execute]
  · norm_num [RechargeGiftCardService.executeUpdateFails, initLedger,
      CreateGiftCardService.execute]
  · norm_num [RechargeGiftCardService.executeUpdateFails, initLedger,
      CreateGiftCardService.execute, lastLinksCard]

/-- C4, counterexample to the claim as stated: a recharge of A = 50 against a
franchisee with rate R = 3 produces a commission amount of exactly
`50 * (3 / 100) = 3/2`, which differs from `round(A * R / 100) = round(3/2) = 2`:
the code applies no rounding. -/
theorem commission_rounding_counterexample :
    let c := (RechargeGiftCardService.execute ⟨1, 3⟩
        (initLedger (CreateGiftCardService.execute 1 1 1 100)) ⟨1, 50, none⟩).1.commission
    c.amount = 3 / 2 ∧ ((round ((50 : ℚ) * 3 / 100) : ℤ) : ℚ) = 2 ∧
      c.amount ≠ ((round ((50 : ℚ) * 3 / 100) : ℤ) : ℚ) := by
  refine ⟨?_, ?_, ?_⟩
  · norm_num [CreateGiftCardService.execute, RechargeGiftCardService.execute, initLedger,
      CreateCommissionService.create]
  · norm_num [round_eq]
  · norm_num [CreateGiftCardService.execute, RechargeGiftCardService.execute, initLedger,
      CreateCommissionService.create, round_eq]

/-- C4 (amended): every recharge synchronously produces exactly one commission
whose amount is exactly `A * R / 100` with no rounding, whose rate is the
franchisee's rate read at the moment of the recharge, in status `pending`,
with no gateway charge reference yet (the recharge service performs no
gateway interaction; charging happens later in a queued job). -/
theorem commission_derivation (f : Franchisee) (s : LedgerState) (d : RechargeData) :
    (RechargeGiftCardService.execute f s d).1.commission.amount =
      d.amount * (f.commissionRate / 100) ∧
    (RechargeGiftCardService.execute f s d).1.commission.rate = f.commissionRate ∧
    (RechargeGiftCardService.execute f s d).1.commission.status =
      CommissionStatus.pending ∧
    (RechargeGiftCardService.execute f s d).1.commission.asaasChargeId = none ∧
    (RechargeGiftCardService.execute f s d).2.commissions =
      s.commissions ++ [(RechargeGiftCardService.execute f s d).1.commission] :=
  ⟨rfl, rfl, rfl, rfl, rfl⟩

/-- C5: evaluating `UseGiftCardService.execute` at the failing input (card
with `currentBalance = 150`, use of 200): the service throws
`BadRequestException('Insufficient balance')`, i.e. HTTP status 400 with code
`E_BAD_REQUEST` and a bare message carrying neither the available nor the
requested amount (not the documented 422 `INSUFFICIENT_BALANCE` error with
both amounts); no transaction is written and the state is unchanged. -/
theorem insufficient_balance_error_eval :
    UseGiftCardService.execute (initLedger (CreateGiftCardService.execute 1 1 1 150))
        ⟨1, 200, none⟩ =
      Except.error
        { code := "E_BAD_REQUEST", message := "Insufficient balance", status := 400 } ∧
    stepOp ⟨1, 5⟩ (initLedger (CreateGiftCardService.execute 1 1 1 150)) (.use 1 200) =
      initLedger (CreateGiftCardService.execute 1 1 1 150) ∧
    (badRequestException "Insufficient balance").status = 400 := by
  refine ⟨?_, ?_, rfl⟩
  · exact UseGiftCardService.execute_insufficient _ _ (show (150 : ℚ) < 200 by norm_num)
  · exact stepOp_use_insufficient _ _ _ _ (show (150 : ℚ) < 200 by norm_num)

/-- C6, counterexample to the claim as stated: `CreateCommissionChargeService.execute`
has no status guard, so a commission whose current status is `paid` is charged
again and moves `paid -> charged` (the claim forbids any transition out of
`paid` and permits `requestCharge` only from `pending` or `failed`); likewise
the webhook success handler moves a `pending` commission directly to `paid`
(the claim permits `paid` only from `charged`). -/
theorem commission_state_machine_counterexample :
    ((CreateCommissionChargeService.execute "cus_1"
        { id := 1, franchiseeId := 1, establishmentId := 1, transactionId := 0,
          amount := 5, rate := 5, status := .paid, asaasChargeId := some "pay_1",
          paymentMethod := some "pix", paidAt := some "2025-01-06" }
        "pix" "2025-01-15" ⟨"pay_2"⟩).1.status = CommissionStatus.charged) ∧
    ((ProcessWebhookService.processEvent
        { id := 1, franchiseeId := 1, establishmentId := 1, transactionId := 0,
          amount := 5, rate := 5, status := .pending, asaasChargeId := none,
          paymentMethod := none, paidAt := none }
        "PAYMENT_CONFIRMED" ⟨"pay_2", some "2025-01-07", "2025-01-07"⟩).status =
      CommissionStatus.paid) :=
  ⟨rfl, rfl⟩

/-- C6 (amended): the commission status writes are unguarded: the charge
service sets `charged` regardless of the current status, the webhook success
handler sets `paid` regardless of the current status, and the charge job's
failure path sets `failed` regardless of the current status; the only part of
the claimed state machine the code does enforce is that no handler ever moves
a commission back to `pending` (every webhook event either leaves the status
unchanged or moves it to a non-`pending` status). -/
theorem commission_transitions_unguarded (cust : String) (c : Commission)
    (pm dd : String) (ch : AsaasCharge) (p : AsaasPayment) :
    (CreateCommissionChargeService.execute cust c pm dd ch).1.status =
      CommissionStatus.charged ∧
    (ProcessWebhookService.handlePaymentSuccess c p).status = CommissionStatus.paid ∧
    (CommissionChargeJob.markFailed c).status = CommissionStatus.failed ∧
    (∀ ev : String, (ProcessWebhookService.processEvent c ev p).status = c.status ∨
      (ProcessWebhookService.processEvent c ev p).status ≠ CommissionStatus.pending) := by
  refine ⟨rfl, rfl, rfl, ?_⟩
  intro ev
  unfold ProcessWebhookService.processEvent
  split_ifs with h1 h2 h3
  · right
    simp [ProcessWebhookService.handlePaymentSuccess]
  · left
    rfl
  · by_cases hp : c.status = CommissionStatus.paid
    · left
      simp [ProcessWebhookService.handlePaymentCancellation, hp]
    · right
      simp [ProcessWebhookService.handlePaymentCancellation, hp]
  · left
    rfl

/-- C7: applying the same payment-confirmation webhook event (same payment
payload, event kind `PAYMENT_CONFIRMED` or `PAYMENT_RECEIVED`) twice yields
exactly the same commission state as applying it once: the handler overwrites
status with `paid` and `paidAt` with a value derived only from the payment
payload (`confirmedDate || clientPaymentDate`), so the replay changes
nothing. -/
theorem webhook_confirmation_idempotent (c : Commission) (p : AsaasPayment) :
    (ProcessWebhookService.processEvent
        (ProcessWebhookService.processEvent c "PAYMENT_CONFIRMED" p)
        "PAYMENT_CONFIRMED" p =
      ProcessWebhookService.processEvent c "PAYMENT_CONFIRMED" p) ∧
    (ProcessWebhookService.processEvent c "PAYMENT_CONFIRMED" p).status =
      CommissionStatus.paid ∧
    (ProcessWebhookService.processEvent c "PAYMENT_CONFIRMED" p).paidAt =
      some (p.confirmedDate.getD p.clientPaymentDate) ∧
    (ProcessWebhookService.processEvent
        (ProcessWebhookService.processEvent c "PAYMENT_RECEIVED" p)
        "PAYMENT_RECEIVED" p =
      ProcessWebhookService.processEvent c "PAYMENT_RECEIVED" p) ∧
    (ProcessWebhookService.processEvent c "PAYMENT_RECEIVED" p).status =
      CommissionStatus.paid :=
  ⟨rfl, rfl, rfl, rfl, rfl⟩

/-- C8: a successful use sets the card's status to `used` exactly when it
drives the balance to 0 — if the new balance is 0 the status becomes `used`,
and if the new balance is nonzero the status is left unchanged — and no
recharge / use operation ever changes a card's status away from `used`. -/
theorem use_sets_used_status (s : LedgerState) (d : UseData)
    (r : UseGiftCardService.UseResult × LedgerState)
    (h : UseGiftCardService.execute s d = Except.ok r) :
    (s.card.currentBalance - d.amount = 0 → r.2.card.status = GCStatus.used) ∧
    (s.card.currentBalance - d.amount ≠ 0 → r.2.card.status = s.card.status) ∧
    (∀ (f : Franchisee) (ops : List Op) (s₀ : LedgerState),
      s₀.card.status = GCStatus.used → (runOps f s₀ ops).card.status = GCStatus.used) := by
  by_cases hlt : s.card.currentBalance < d.amount
  · rw [UseGiftCardService.execute_insufficient s d hlt] at h
    exact absurd h (by simp)
  · rw [UseGiftCardService.execute_sufficient s d hlt] at h
    have hr := Except.ok.inj h
    subst hr
    refine ⟨?_, ?_, fun f ops s₀ h₀ => runOps_status_used f ops s₀ h₀⟩
    · intro hz
      simp [hz]
    · intro hz
      simp [hz]

/-- Witness for the C8 theorem at a concrete input: using 150 from a card
whose balance is 150 succeeds, drives the balance to 0 and sets the status
to `used`. -/
theorem use_sets_used_status_witness :
    (UseGiftCardService.execute (initLedger (CreateGiftCardService.execute 1 1 1 150))
        ⟨1, 150, none⟩ =
      Except.ok
        ({ transaction :=
            { id := 0, giftCardId := 1, establishmentId := 1, txType := TxType.usage,
              amount := 150, balanceBefore := 150, balanceAfter := 0,
              description := none },
           giftCard :=
            { id := 1, franchiseeId := 1, establishmentId := 1, initialValue := 150,
              currentBalance := 0, status := GCStatus.used } },
         { card :=
            { id := 1, franchiseeId := 1, establishmentId := 1, initialValue := 150,
              currentBalance := 0, status := GCStatus.used },
           transactions :=
            [{ id := 0, giftCardId := 1, establishmentId := 1, txType := TxType.usage,
               amount := 150, balanceBefore := 150, balanceAfter := 0,
               description := none }],
           commissions := [] })) ∧
    ((150 : ℚ) - 150 = 0) ∧
    (({ id := 1, franchiseeId := 1, establishmentId := 1, initialValue := 150,
        currentBalance := 0, status := GCStatus.used } : GiftCard).status =
      GCStatus.used) := by
  have h : UseGiftCardService.execute (initLedger (CreateGiftCardService.execute 1 1 1 150))
      ⟨1, 150, none⟩ =
      Except.ok
        ({ transaction :=
            { id := 0, giftCardId := 1, establishmentId := 1, txType := TxType.usage,
              amount := 150, balanceBefore := 150, balanceAfter := 0,
              description := none },
           giftCard :=
            { id := 1, franchiseeId := 1, establishmentId := 1, initialValue := 150,
              currentBalance := 0, status := GCStatus.used } },
         { card :=
            { id := 1, franchiseeId := 1, establishmentId := 1, initialValue := 150,
              currentBalance := 0, status := GCStatus.used },
           transactions :=
            [{ id := 0, giftCardId := 1, establishmentId := 1, txType := TxType.usage,
               amount := 150, balanceBefore := 150, balanceAfter := 0,
               description := none }],
           commissions := [] }) := by
    rw [UseGiftCardService.execute_sufficient
      (initLedger (CreateGiftCardService.execute 1 1 1 150)) ⟨1, 150, none⟩
      (show ¬ (150 : ℚ) < 150 by norm_num)]
    norm_num [initLedger, CreateGiftCardService.execute]
  exact ⟨h, by norm_num,
    (use_sets_used_status _ _ _ h).1 (show (150 : ℚ) - 150 = 0 by norm_num)⟩

/-- C9: any payment-method string other than `ticket`, `pix`, `credit_card`
silently falls back to billing type `PIX`: `mapPaymentMethod` returns `PIX`
and `CreateCommissionChargeService.execute` still creates the gateway charge
with billing type `PIX` and marks the commission `charged` instead of
rejecting the request. -/
theorem unrecognized_method_falls_back_to_pix (m : String)
    (h1 : m ≠ "ticket") (h2 : m ≠ "pix") (h3 : m ≠ "credit_card") :
    CreateCommissionChargeService.mapPaymentMethod m = "PIX" ∧
    ∀ (cust : String) (c : Commission) (dd : String) (ch : AsaasCharge),
      (CreateCommissionChargeService.execute cust c m dd ch).2.billingType = "PIX" ∧
      (CreateCommissionChargeService.execute cust c m dd ch).1.status =
        CommissionStatus.charged := by
  have hm : CreateCommissionChargeService.mapPaymentMethod m = "PIX" := by
    unfold CreateCommissionChargeService.mapPaymentMethod
    simp [h1, h2, h3]
  refine ⟨hm, fun cust c dd ch => ⟨?_, rfl⟩⟩
  show CreateCommissionChargeService.mapPaymentMethod m = "PIX"
  exact hm

/-- Witness for the C9 theorem at the concrete method string `paypal`. -/
theorem unrecognized_method_falls_back_to_pix_witness :
    (("paypal" : String) ≠ "ticket" ∧ ("paypal" : String) ≠ "pix" ∧
      ("paypal" : String) ≠ "credit_card") ∧
    (CreateCommissionChargeService.mapPaymentMethod "paypal" = "PIX" ∧
      ∀ (cust : String) (c : Commission) (dd : String) (ch : AsaasCharge),
        (CreateCommissionChargeService.execute cust c "paypal" dd ch).2.billingType =
          "PIX" ∧
        (CreateCommissionChargeService.execute cust c "paypal" dd ch).1.status =
          CommissionStatus.charged) :=
  ⟨⟨by decide, by decide, by decide⟩,
    unrecognized_method_falls_back_to_pix "paypal" (by decide) (by decide) (by decide)⟩

/-- C10: gateway customer creation is idempotent per establishment: when the
establishment already has an `asaasCustomerId`, `CreateCustomerService.execute`
returns that id with no gateway call and no establishment update; and for any
establishment, running the service a second time returns the same id and the
same establishment state as the first run, with no further gateway call. -/
theorem customer_creation_idempotent (est : Establishment) (cid g : String)
    (h : est.asaasCustomerId = some cid) :
    CreateCustomerService.execute est g =
      { customerId := cid, establishment := est, gatewayCalls := 0 } ∧
    ∀ (e0 : Establishment) (a b : String),
      CreateCustomerService.execute (CreateCustomerService.execute e0 a).establishment b =
        { customerId := (CreateCustomerService.execute e0 a).customerId,
          establishment := (CreateCustomerService.execute e0 a).establishment,
          gatewayCalls := 0 } := by
  constructor
  · simp [CreateCustomerService.execute, h]
  · intro e0 a b
    cases he : e0.asaasCustomerId <;> simp [CreateCustomerService.execute, he]

/-- Witness for the C10 theorem at a concrete establishment that already has
a gateway customer id. -/
theorem customer_creation_idempotent_witness :
    ((⟨1, "Salon ABC", some "cus_9"⟩ : Establishment).asaasCustomerId = some "cus_9") ∧
    (CreateCustomerService.execute ⟨1, "Salon ABC", some "cus_9"⟩ "cus_new" =
      { customerId := "cus_9", establishment := ⟨1, "Salon ABC", some "cus_9"⟩,
        gatewayCalls := 0 } ∧
    ∀ (e0 : Establishment) (a b : String),
      CreateCustomerService.execute (CreateCustomerService.execute e0 a).establishment b =
        { customerId := (CreateCustomerService.execute e0 a).customerId,
          establishment := (CreateCustomerService.execute e0 a).establishment,
          gatewayCalls := 0 }) :=
  ⟨rfl, customer_creation_idempotent ⟨1, "Salon ABC", some "cus_9"⟩ "cus_9" "cus_new" rfl⟩

end GiftCardPlatform
